import Mathlib

/-!
Verification of the smart-planter repository (ootsuk/sotugyouseisaku).

Shallow embedding of the Python sources:
  * `src/camera/camera.py`   — capture, save, and retention sweep
  * `src/app/app.py`         — Flask endpoints (status, watering)
  * `config.py`              — environment-variable configuration
  * `main.py`, `src/utils/logger.py` — process startup

Time is modelled as epoch seconds (`Int`); Python `datetime` values are a
six-field structure.  The filesystem is a list of file entries carrying the
directory, name, ctime (filesystem metadata, what `os.path.getctime`
returns), the stored frame data and the JPEG quality used when writing.
-/

namespace SmartPlanter

/-! ## Constants from `src/camera/camera.py` (lines 10-17) -/

def SAVE_DIR : String := "plant_images"

def IMAGE_WIDTH : Nat := 1280

def IMAGE_HEIGHT : Nat := 720

def RETENTION_DAYS : Nat := 90

/-! ## Python `datetime` model -/

/-- A Python `datetime.datetime` value at one-second resolution. -/
structure DateTime where
  year : Nat
  month : Nat
  day : Nat
  hour : Nat
  minute : Nat
  second : Nat
deriving DecidableEq, Repr

/-- The decimal digit character for `n % 10` (how `strftime` renders one
zero-padded digit position). -/
def digitChar (n : Nat) : Char := Char.ofNat (48 + n % 10)

/-- Numeric value of a digit character (inverse of `digitChar`). -/
def charDigit (c : Char) : Nat := c.toNat - 48

/-- Value of a big-endian list of decimal digit characters. -/
def digitsVal (cs : List Char) : Nat := cs.foldl (fun a c => a * 10 + charDigit c) 0

/-- `get_file_name` (camera.py lines 20-23): renders the current time as
`now.strftime("%Y%m%d_%H%M%S.jpg")`, i.e. the 19 characters
`YYYYMMDD_HHMMSS.jpg` with each numeric field zero-padded. -/
def get_file_name (now : DateTime) : String :=
  ⟨[digitChar (now.year / 1000), digitChar (now.year / 100), digitChar (now.year / 10),
    digitChar now.year,
    digitChar (now.month / 10), digitChar now.month,
    digitChar (now.day / 10), digitChar now.day, '_',
    digitChar (now.hour / 10), digitChar now.hour,
    digitChar (now.minute / 10), digitChar now.minute,
    digitChar (now.second / 10), digitChar now.second, '.', 'j', 'p', 'g']⟩

/-- Parsing a capture file name back into the timestamp it encodes
(`datetime.strptime(name, "%Y%m%d_%H%M%S.jpg")`). -/
def parse_file_name (s : String) : Option DateTime :=
  match s.data with
  | [y1, y2, y3, y4, mo1, mo2, d1, d2, u, h1, h2, mi1, mi2, s1, s2, dot, e1, e2, e3] =>
    if y1.isDigit && y2.isDigit && y3.isDigit && y4.isDigit && mo1.isDigit && mo2.isDigit
        && d1.isDigit && d2.isDigit && u == '_' && h1.isDigit && h2.isDigit && mi1.isDigit
        && mi2.isDigit && s1.isDigit && s2.isDigit && dot == '.' && e1 == 'j' && e2 == 'p'
        && e3 == 'g' then
      some ⟨digitsVal [y1, y2, y3, y4], digitsVal [mo1, mo2], digitsVal [d1, d2],
            digitsVal [h1, h2], digitsVal [mi1, mi2], digitsVal [s1, s2]⟩
    else none
  | _ => none

/-- Epoch seconds of a `DateTime` (the inverse of Python's
`datetime.datetime.fromtimestamp`, days-from-civil algorithm).  Used to
compare a name-embedded capture timestamp with a sweep time given in epoch
seconds; `datetime` comparison in Python agrees with comparison of these
epoch values. -/
def epochOfDateTime (t : DateTime) : Int :=
  let y : Nat := if t.month ≤ 2 then t.year - 1 else t.year
  let era : Nat := y / 400
  let yoe : Nat := y % 400
  let mp : Nat := (t.month + 9) % 12
  let doy : Nat := (153 * mp + 2) / 5 + (t.day - 1)
  let doe : Nat := yoe * 365 + yoe / 4 - yoe / 100 + doy
  ((era * 146097 + doe : Int) - 719468) * 86400
    + t.hour * 3600 + t.minute * 60 + t.second

/-! ## Filesystem model -/

/-- One file on disk: directory, file name, ctime (what `os.path.getctime`
reports, epoch seconds), stored image data and the JPEG quality it was
written with. -/
structure FileEntry where
  dir : String
  name : String
  ctime : Int
  data : Nat
  quality : Nat
deriving DecidableEq, Repr

/-- `String.endsWith`, phrased over the character list so that the kernel
can evaluate it on literals. -/
def strEndsWith (s t : String) : Bool := List.isPrefixOf t.data.reverse s.data.reverse

/-- `String.startsWith`, phrased over the character list so that the kernel
can evaluate it on literals. -/
def strStartsWith (s t : String) : Bool := List.isPrefixOf t.data s.data

/-- Whether `glob.glob(os.path.join(SAVE_DIR, "*.jpg"))` lists a file of this
name: the name ends in `.jpg` and is not a hidden (dot) file. -/
def globJpgMatch (name : String) : Bool :=
  strEndsWith name ".jpg" && !(strStartsWith name ".")

/-- A file enumerated by the retention sweep: a `*.jpg` directly inside
`SAVE_DIR`. -/
def sweepTarget (f : FileEntry) : Bool :=
  f.dir == SAVE_DIR && globJpgMatch f.name

/-- `delete_old_images` (camera.py lines 30-44): `cutoff_date = now -
timedelta(days=RETENTION_DAYS)`; every `*.jpg` under `SAVE_DIR` whose
`os.path.getctime` date is strictly before the cutoff is removed with
`os.remove`.  The sweep time `now` (the code's `datetime.datetime.now()`) is
passed explicitly; `timedelta(days=d)` is `d * 86400` seconds. -/
def delete_old_images (now : Int) (files : List FileEntry) : List FileEntry :=
  files.filter (fun f =>
    !(sweepTarget f && decide (f.ctime < now - (RETENTION_DAYS : Int) * 86400)))

/-- `save_image` (camera.py lines 25-28): `cv2.imwrite(file_path, frame,
[IMWRITE_JPEG_QUALITY, 95])`.  `imwrite` overwrites an existing file of the
same path and its boolean result is ignored, so no error is ever reported. -/
def save_image (frame : Nat) (dir name : String) (now : Int)
    (files : List FileEntry) : List FileEntry :=
  if files.any (fun f => f.dir == dir && f.name == name) then
    files.map (fun f =>
      if f.dir == dir && f.name == name then
        { f with ctime := now, data := frame, quality := 95 }
      else f)
  else
    files ++ [⟨dir, name, now, frame, 95⟩]

/-! ## Camera model -/

/-- A `cv2.VideoCapture` device: whether `isOpened()` holds, the sequence of
frame-read results (`none` models `ret == False`), and the configured
resolution. -/
structure Camera where
  opened : Bool
  frames : List (Option Nat)
  width : Nat
  height : Nat
deriving DecidableEq, Repr

/-- The observable outcome of `capture_and_save`: which exit path was taken
(the function itself returns `None`; errors are only printed). -/
inductive CaptureOutcome where
  | deviceUnavailable
  | frameReadFailed
  | saved (fileName : String)
deriving DecidableEq, Repr

/-- Result state of one `capture_and_save` call. -/
structure CaptureResult where
  outcome : CaptureOutcome
  cam : Camera
  released : Bool
  files : List FileEntry
deriving DecidableEq, Repr

/-- `PlantCaptureManager.capture_and_save` (camera.py lines 55-86):
open the device; if `isOpened()` fails, print and return (no `release()`
call on this path); otherwise set the resolution, perform ONE `cap.read()`
(the comment labels it camera warm-up), return after `release()` if the read
failed; otherwise save THAT frame under `get_file_name()`, release the
device, and run `delete_old_images()`. -/
def capture_and_save (cap : Camera) (now : DateTime) (nowEpoch : Int)
    (files : List FileEntry) : CaptureResult :=
  if !cap.opened then
    ⟨.deviceUnavailable, cap, false, files⟩
  else
    let cap := { cap with width := IMAGE_WIDTH, height := IMAGE_HEIGHT }
    match cap.frames with
    | [] => ⟨.frameReadFailed, cap, true, files⟩
    | none :: _ => ⟨.frameReadFailed, cap, true, files⟩
    | some frame :: _ =>
      let fileName := get_file_name now
      let files := save_image frame SAVE_DIR fileName nowEpoch files
      ⟨.saved fileName, cap, true, delete_old_images nowEpoch files⟩

/-! ## Watering controller -/

/-- A soil-moisture reading (temperature/humidity floats are not consulted
by the watering decision and are omitted). -/
structure SensorReading where
  soilMoisture : Int
  takenAt : Int
deriving DecidableEq, Repr

/-- A watering log entry; `triggeredAt` is epoch seconds. -/
structure WateringEvent where
  triggeredAt : Int
  durationSeconds : Nat
  amountMl : Nat
deriving DecidableEq, Repr

/-- The three possible watering decisions. -/
inductive Decision where
  | Trigger
  | SkipTooSoon
  | SkipMoistSufficient
deriving DecidableEq, Repr

/-- Configuration default (config.py line: `SOIL_MOISTURE_THRESHOLD`, 159). -/
def SOIL_MOISTURE_THRESHOLD : Int := 159

/-- Configuration default (config.py line: `WATERING_INTERVAL_HOURS`, 12). -/
def WATERING_INTERVAL_HOURS : Int := 12

/-- Modelled from the spec: `WateringController.decide`.  The repository
contains no watering-decision logic — the endpoint `api_watering`
(src/app/app.py) is an explicit TODO placeholder that always reports
success.  The spec's algorithm: `SkipTooSoon` if
`now - lastWatering.triggeredAt < WATERING_INTERVAL_HOURS`; else
`SkipMoistSufficient` if `reading.soilMoisture < SOIL_MOISTURE_THRESHOLD`;
else `Trigger`.  Times are epoch seconds, so the interval bound is
`WATERING_INTERVAL_HOURS * 3600`. -/
def WateringController.decide (reading : SensorReading)
    (lastWatering : Option WateringEvent) (now : Int) : Decision :=
  match lastWatering with
  | some lw =>
    if now - lw.triggeredAt < WATERING_INTERVAL_HOURS * 3600 then .SkipTooSoon
    else if reading.soilMoisture < SOIL_MOISTURE_THRESHOLD then .SkipMoistSufficient
    else .Trigger
  | none =>
    if reading.soilMoisture < SOIL_MOISTURE_THRESHOLD then .SkipMoistSufficient
    else .Trigger

/-- `str.upper()` over the character list. -/
def pyToUpper (s : String) : String := ⟨s.data.map Char.toUpper⟩

/-- `str.lower()` over the character list. -/
def pyToLower (s : String) : String := ⟨s.data.map Char.toLower⟩

/-! ## Flask app (`src/app/app.py`) -/

/-- Environment variables: a partial map from names to values. -/
def Env : Type := String → Option String

/-- The state `create_app` builds (src/app/app.py lines 12-27): Flask app
configuration.  The status handler closes over no mutable state. -/
structure AppModel where
  secretKey : String
  debug : Bool
deriving DecidableEq, Repr

/-- `create_app` (src/app/app.py): reads `SECRET_KEY` (default
`dev-secret-key`) and `FLASK_DEBUG` (default `True`, compared lowercase to
`true`).  It never consults the interval configuration and cannot fail. -/
def create_app (env : Env) : AppModel :=
  ⟨(env "SECRET_KEY").getD "dev-secret-key",
   pyToLower ((env "FLASK_DEBUG").getD "True") == "true"⟩

/-- `api_status` (src/app/app.py lines 34-41): the `/api/status` handler.
It returns `jsonify({'status': 'running', 'timestamp':
datetime.now().isoformat(), 'version': '1.0.0'})` and leaves the app state
untouched; the response is modelled as the ordered key/value list of the
JSON object. -/
def api_status (app : AppModel) (nowIso : String) :
    List (String × String) × AppModel :=
  ([("status", "running"), ("timestamp", nowIso), ("version", "1.0.0")], app)

/-! ## Configuration (`config.py`) and startup (`main.py`, logger) -/

/-- Surrounding-whitespace strip over the character list (the effect of the
whitespace tolerance of Python `int`). -/
def stripChars (cs : List Char) : List Char :=
  ((cs.dropWhile Char.isWhitespace).reverse.dropWhile Char.isWhitespace).reverse

/-- Python `int(s)` on a string: strips surrounding whitespace, allows one
optional sign, then requires a nonempty run of decimal digits (digit-group
underscores are not modelled; no claim depends on them). -/
def parsePyInt (s : String) : Option Int :=
  match stripChars s.data with
  | '-' :: ds =>
    if ds ≠ [] ∧ ds.all Char.isDigit then some (-(digitsVal ds : Int)) else none
  | '+' :: ds =>
    if ds ≠ [] ∧ ds.all Char.isDigit then some (digitsVal ds : Int) else none
  | ds =>
    if ds ≠ [] ∧ ds.all Char.isDigit then some (digitsVal ds : Int) else none

/-- The exception raised while evaluating the `Config` class body:
`int(os.environ.get(key, default))` raises `ValueError` when the variable
is present but not numeric. -/
inductive ConfigError where
  | invalidInt (key : String)
deriving DecidableEq, Repr

/-- The values the `Config` class body (config.py lines 11-48) computes. -/
structure ConfigValues where
  SECRET_KEY : String
  DATA_BASE_PATH : String
  SENSOR_CHECK_INTERVAL : Int
  TEMPERATURE_HUMIDITY_INTERVAL : Int
  SOIL_MOISTURE_INTERVAL : Int
  SOIL_MOISTURE_THRESHOLD : Int
  WATERING_INTERVAL_HOURS : Int
  WATERING_DURATION_SECONDS : Int
  WATER_AMOUNT_ML : Int
  CAMERA_RESOLUTION_WIDTH : Int
  CAMERA_RESOLUTION_HEIGHT : Int
  AUTO_CAPTURE_TIME : String
  LOG_LEVEL : String
deriving DecidableEq, Repr

/-- `int(os.environ.get(key, default))`: a missing variable falls back to
the integer default (no parse, no error); a present variable must parse. -/
def envInt (env : Env) (key : String) (dflt : Int) : Except ConfigError Int :=
  match env key with
  | none => .ok dflt
  | some s =>
    match parsePyInt s with
    | some n => .ok n
    | none => .error (.invalidInt key)

/-- Evaluation of the `Config` class body (config.py): fields in source
order; the first non-numeric present variable aborts with `ConfigError`. -/
def loadConfig (env : Env) : Except ConfigError ConfigValues := do
  let sk := (env "SECRET_KEY").getD "dev-secret-key-change-in-production"
  let dbp := (env "DATA_BASE_PATH").getD "/mnt/usb-storage"
  let sci ← envInt env "SENSOR_CHECK_INTERVAL" 60
  let thi ← envInt env "TEMPERATURE_HUMIDITY_INTERVAL" 1800
  let smi ← envInt env "SOIL_MOISTURE_INTERVAL" 300
  let smt ← envInt env "SOIL_MOISTURE_THRESHOLD" 159
  let wih ← envInt env "WATERING_INTERVAL_HOURS" 12
  let wds ← envInt env "WATERING_DURATION_SECONDS" 5
  let wam ← envInt env "WATER_AMOUNT_ML" 100
  let crw ← envInt env "CAMERA_RESOLUTION_WIDTH" 1280
  let crh ← envInt env "CAMERA_RESOLUTION_HEIGHT" 720
  let act := (env "AUTO_CAPTURE_TIME").getD "06:00"
  let lvl := (env "LOG_LEVEL").getD "INFO"
  .ok ⟨sk, dbp, sci, thi, smi, smt, wih, wds, wam, crw, crh, act, lvl⟩

/-- An exception escaping `main()`'s try block (caught and turned into
`sys.exit(1)`, i.e. the process fails to start). -/
inductive StartupError where
  | loggingSetupFailed
deriving DecidableEq, Repr

/-- The logging level names for which `getattr(logging, log_level)` yields a
usable level in `setup_logging` (src/utils/logger.py). -/
def logLevelNames : List String :=
  ["CRITICAL", "FATAL", "ERROR", "WARN", "WARNING", "INFO", "DEBUG", "NOTSET"]

/-- `setup_logging` (src/utils/logger.py): reads `LOG_LEVEL` (default
`INFO`), uppercases it, and applies `getattr(logging, log_level)` — an
unknown name raises and the exception propagates to `main`.  No other
configuration value is consulted. -/
def setup_logging (env : Env) : Except StartupError Unit :=
  if logLevelNames.contains (pyToUpper ((env "LOG_LEVEL").getD "INFO")) then .ok ()
  else .error .loggingSetupFailed

/-- `main` (main.py lines 20-44): `setup_logging()`, then `create_app()`,
then `app.run(...)`.  Neither `main.py` nor `src/app/app.py` imports
`config.py`, so `Config`'s class body — and hence its `int(...)`
conversions — is never evaluated during startup.  `.ok app` models the
process reaching `app.run`. -/
def pythonMain (env : Env) : Except StartupError AppModel := do
  let _ ← setup_logging env
  let app := create_app env
  .ok app

/-- A concrete environment holding a non-numeric critical interval and
nothing else. -/
def envBadInterval : Env :=
  fun k => if k == "SENSOR_CHECK_INTERVAL" then some "abc" else none

/-! ## Theorems: retention sweep -/

/-- Shared characterization: a file survives `delete_old_images` iff it was
present and is not an expired sweep target. -/
theorem mem_delete_old_images {f : FileEntry} {now : Int} {files : List FileEntry} :
    f ∈ delete_old_images now files ↔
      f ∈ files ∧ ¬(sweepTarget f = true ∧
        f.ctime < now - (RETENTION_DAYS : Int) * 86400) := by
  simp only [delete_old_images, List.mem_filter, Bool.not_eq_true', Bool.and_eq_false_iff,
    decide_eq_false_iff_not, not_lt, not_and]
  constructor
  · rintro ⟨hm, hc⟩
    refine ⟨hm, fun ht => ?_⟩
    rcases hc with h | h
    · rw [ht] at h; cases h
    · exact h
  · rintro ⟨hm, hc⟩
    refine ⟨hm, ?_⟩
    by_cases ht : sweepTarget f = true
    · exact Or.inr (hc ht)
    · exact Or.inl (by simpa using ht)

/-- Shared unfolding of what the sweep's `glob` pattern selects. -/
theorem sweepTarget_iff {f : FileEntry} :
    sweepTarget f = true ↔
      f.dir = SAVE_DIR ∧ strEndsWith f.name ".jpg" = true ∧
        strStartsWith f.name "." = false := by
  simp [sweepTarget, globJpgMatch, Bool.and_eq_true]

/-- C1 (counterexample): the claim that the sweep decides by the
name-embedded capture timestamp and never deletes a file whose capture
timestamp is within `RETENTION_DAYS` of the sweep time is false.  The file
`20250910_100000.jpg` carries the capture timestamp 2025-09-10 10:00:00,
which IS the sweep time (epoch 1757498400), hence far newer than the
90-day cutoff — yet the sweep deletes it, because its filesystem ctime is
old (epoch 0). -/
theorem delete_old_images_ctime_cex :
    parse_file_name "20250910_100000.jpg" = some ⟨2025, 9, 10, 10, 0, 0⟩ ∧
    epochOfDateTime ⟨2025, 9, 10, 10, 0, 0⟩ = 1757498400 ∧
    ((1757498400 : Int) - (RETENTION_DAYS : Int) * 86400 <
      epochOfDateTime ⟨2025, 9, 10, 10, 0, 0⟩) ∧
    delete_old_images 1757498400 [⟨SAVE_DIR, "20250910_100000.jpg", 0, 7, 95⟩] = [] := by
  refine ⟨by decide, by decide, by decide, by decide⟩

/-- C1 (amended): the retention sweep decides deletion by filesystem ctime,
not by the name-embedded capture timestamp: a file present in the directory
is deleted iff it is a `*.jpg` under `SAVE_DIR` whose ctime is strictly
older than `RETENTION_DAYS` before the sweep time, and a file whose ctime
is within `RETENTION_DAYS` of the sweep time is never deleted. -/
theorem delete_old_images_ctime_spec (now : Int) (files : List FileEntry)
    (f : FileEntry) (hf : f ∈ files) :
    (f ∉ delete_old_images now files ↔
      sweepTarget f = true ∧ f.ctime < now - (RETENTION_DAYS : Int) * 86400) ∧
    (now - (RETENTION_DAYS : Int) * 86400 ≤ f.ctime →
      f ∈ delete_old_images now files) := by
  constructor
  · rw [mem_delete_old_images]
    constructor
    · intro hnot
      by_contra hc
      exact hnot ⟨hf, hc⟩
    · intro hexp
      rintro ⟨_, hn⟩
      exact hn hexp
  · intro hle
    exact mem_delete_old_images.mpr ⟨hf, fun h => absurd h.2 (not_lt.mpr hle)⟩

/-- C1 (witness for the amended theorem): a capture file whose ctime equals
the sweep time survives the sweep. -/
theorem delete_old_images_ctime_spec_witness :
    (⟨SAVE_DIR, "20250910_100000.jpg", 1757498400, 7, 95⟩ : FileEntry) ∈
      delete_old_images 1757498400
        [⟨SAVE_DIR, "20250910_100000.jpg", 1757498400, 7, 95⟩] :=
  (delete_old_images_ctime_spec 1757498400 _ _ (by simp)).2 (by decide)

/-- C7: running the retention sweep twice in succession (same sweep time,
no captures in between) deletes exactly the expired `*.jpg` files on the
first run and is a no-op on the second run. -/
theorem prune_idempotent (now : Int) (files : List FileEntry) :
    delete_old_images now (delete_old_images now files) =
      delete_old_images now files ∧
    (∀ f ∈ files, f ∉ delete_old_images now files ↔
      sweepTarget f = true ∧ f.ctime < now - (RETENTION_DAYS : Int) * 86400) := by
  constructor
  · simp [delete_old_images]
  · intro f hf
    constructor
    · intro hnot
      by_contra hc
      exact hnot (mem_delete_old_images.mpr ⟨hf, hc⟩)
    · intro hexp hmem
      exact (mem_delete_old_images.mp hmem).2 hexp

/-- C7 (witness): one expired file is deleted by the first run and the
second run leaves the directory unchanged. -/
theorem prune_idempotent_witness :
    delete_old_images 7776001
        (delete_old_images 7776001 [⟨SAVE_DIR, "20250101_000000.jpg", 0, 3, 95⟩]) =
      delete_old_images 7776001 [⟨SAVE_DIR, "20250101_000000.jpg", 0, 3, 95⟩] ∧
    (⟨SAVE_DIR, "20250101_000000.jpg", 0, 3, 95⟩ : FileEntry) ∉
      delete_old_images 7776001 [⟨SAVE_DIR, "20250101_000000.jpg", 0, 3, 95⟩] :=
  ⟨(prune_idempotent 7776001 _).1,
   ((prune_idempotent 7776001 _).2 _ (by simp)).mpr (by decide)⟩

/-- C10: the retention sweep only ever removes `*.jpg` files directly
inside `SAVE_DIR`: every deleted file was a `.jpg` under `SAVE_DIR`, and
every file in another directory or with another extension survives. -/
theorem delete_old_images_frame_spec (now : Int) (files : List FileEntry)
    (f : FileEntry) (hf : f ∈ files) :
    (f ∉ delete_old_images now files →
      f.dir = SAVE_DIR ∧ strEndsWith f.name ".jpg" = true) ∧
    (¬(f.dir = SAVE_DIR ∧ strEndsWith f.name ".jpg" = true) →
      f ∈ delete_old_images now files) := by
  constructor
  · intro hdel
    by_contra hne
    refine hdel (mem_delete_old_images.mpr ⟨hf, ?_⟩)
    rintro ⟨ht, _⟩
    obtain ⟨hd, hj, _⟩ := sweepTarget_iff.mp ht
    exact hne ⟨hd, hj⟩
  · intro hne
    refine mem_delete_old_images.mpr ⟨hf, ?_⟩
    rintro ⟨ht, _⟩
    obtain ⟨hd, hj, _⟩ := sweepTarget_iff.mp ht
    exact hne ⟨hd, hj⟩

/-- C10 (witness): a non-`.jpg` file with an ancient ctime inside the
capture directory survives the sweep. -/
theorem delete_old_images_frame_spec_witness :
    (⟨SAVE_DIR, "notes.txt", 0, 0, 0⟩ : FileEntry) ∈
      delete_old_images 1757498400 [⟨SAVE_DIR, "notes.txt", 0, 0, 0⟩] :=
  (delete_old_images_frame_spec 1757498400 _ _ (by simp)).2 (by decide)

/-! ## Theorems: capture -/

/-- C5 (counterexample): when the camera cannot be opened,
`capture_and_save` returns without calling `release()`. -/
theorem release_open_fail_cex :
    (capture_and_save ⟨false, [], 0, 0⟩ ⟨2025, 9, 10, 10, 0, 0⟩ 0 []).released = false ∧
    (capture_and_save ⟨false, [], 0, 0⟩ ⟨2025, 9, 10, 10, 0, 0⟩ 0 []).outcome =
      .deviceUnavailable :=
  ⟨rfl, rfl⟩

/-- C5 (amended): on every exit path taken after the camera was
successfully opened — frame-read failure or successful save — the device is
released before `capture_and_save` returns; when the open itself fails, the
function returns without calling `release`. -/
theorem release_after_open_spec (cap : Camera) (now : DateTime) (nowEpoch : Int)
    (files : List FileEntry) (ho : cap.opened = true) :
    (capture_and_save cap now nowEpoch files).released = true := by
  obtain ⟨o, frames, w, hh⟩ := cap
  cases ho
  rcases frames with _ | ⟨_ | fr, rest⟩ <;> rfl

/-- C5 (witness): with an opened camera whose first read fails, the device
is still released. -/
theorem release_after_open_spec_witness :
    (capture_and_save ⟨true, [], 0, 0⟩ ⟨2025, 9, 10, 10, 0, 0⟩ 0 []).released = true :=
  release_after_open_spec ⟨true, [], 0, 0⟩ ⟨2025, 9, 10, 10, 0, 0⟩ 0 [] rfl

/-- C3 (counterexample): with a camera that would deliver the distinct
frames 7 then 8, `capture_and_save` encodes frame 7 — the very frame read by
the "warm-up" `cap.read()` — as the saved JPEG; no second frame is read, so
the claim that the first frame is discarded and a second frame is saved is
false. -/
theorem capture_first_frame_cex :
    capture_and_save ⟨true, [some 7, some 8], 0, 0⟩ ⟨2025, 9, 10, 10, 0, 0⟩ 1757498400 [] =
      ⟨.saved "20250910_100000.jpg", ⟨true, [some 7, some 8], 1280, 720⟩, true,
        [⟨"plant_images", "20250910_100000.jpg", 1757498400, 7, 95⟩]⟩ ∧
    (7 : Nat) ≠ 8 := by
  refine ⟨by decide, by decide⟩

/-- C3 (amended): with an openable camera whose single read yields a frame,
`capture_and_save` configures the resolution, saves THAT first frame as a
JPEG at quality 95 under the name `get_file_name now`
(`YYYYMMDD_HHMMSS.jpg`), and releases the device. -/
theorem capture_and_save_spec (cap : Camera) (now : DateTime) (nowEpoch : Int)
    (files : List FileEntry) (fr : Nat) (rest : List (Option Nat))
    (ho : cap.opened = true) (hfr : cap.frames = some fr :: rest)
    (hnc : files.all (fun g => !(g.dir == SAVE_DIR && g.name == get_file_name now)) = true) :
    (capture_and_save cap now nowEpoch files).outcome = .saved (get_file_name now) ∧
    (capture_and_save cap now nowEpoch files).cam.width = IMAGE_WIDTH ∧
    (capture_and_save cap now nowEpoch files).cam.height = IMAGE_HEIGHT ∧
    (capture_and_save cap now nowEpoch files).released = true ∧
    (⟨SAVE_DIR, get_file_name now, nowEpoch, fr, 95⟩ : FileEntry) ∈
      (capture_and_save cap now nowEpoch files).files := by
  obtain ⟨o, frames, w, hh⟩ := cap
  obtain rfl : o = true := ho
  obtain rfl : frames = some fr :: rest := hfr
  have hany : files.any (fun f => f.dir == SAVE_DIR && f.name == get_file_name now) = false := by
    rw [List.any_eq_false]
    intro g hg
    have := List.all_eq_true.mp hnc g hg
    simp only [Bool.not_eq_true'] at this
    simp [this]
  refine ⟨rfl, rfl, rfl, rfl, ?_⟩
  show (⟨SAVE_DIR, get_file_name now, nowEpoch, fr, 95⟩ : FileEntry) ∈
    delete_old_images nowEpoch (save_image fr SAVE_DIR (get_file_name now) nowEpoch files)
  have hmem : (⟨SAVE_DIR, get_file_name now, nowEpoch, fr, 95⟩ : FileEntry) ∈
      save_image fr SAVE_DIR (get_file_name now) nowEpoch files := by
    unfold save_image
    rw [hany]
    simp
  refine mem_delete_old_images.mpr ⟨hmem, ?_⟩
  rintro ⟨-, hlt⟩
  simp only [RETENTION_DAYS] at hlt
  omega

/-- C3 (witness for the amended theorem): a concrete capture with frames
7 then 8 saves frame 7 under the generated name and releases the device. -/
theorem capture_and_save_spec_witness :
    (capture_and_save ⟨true, [some 7, some 8], 0, 0⟩ ⟨2025, 9, 10, 10, 0, 0⟩
        1757498400 []).outcome = .saved (get_file_name ⟨2025, 9, 10, 10, 0, 0⟩) ∧
    (capture_and_save ⟨true, [some 7, some 8], 0, 0⟩ ⟨2025, 9, 10, 10, 0, 0⟩
        1757498400 []).cam.width = IMAGE_WIDTH ∧
    (capture_and_save ⟨true, [some 7, some 8], 0, 0⟩ ⟨2025, 9, 10, 10, 0, 0⟩
        1757498400 []).cam.height = IMAGE_HEIGHT ∧
    (capture_and_save ⟨true, [some 7, some 8], 0, 0⟩ ⟨2025, 9, 10, 10, 0, 0⟩
        1757498400 []).released = true ∧
    (⟨SAVE_DIR, get_file_name ⟨2025, 9, 10, 10, 0, 0⟩, 1757498400, 7, 95⟩ : FileEntry) ∈
      (capture_and_save ⟨true, [some 7, some 8], 0, 0⟩ ⟨2025, 9, 10, 10, 0, 0⟩
        1757498400 []).files :=
  capture_and_save_spec ⟨true, [some 7, some 8], 0, 0⟩ ⟨2025, 9, 10, 10, 0, 0⟩
    1757498400 [] 7 [some 8] rfl rfl rfl

/-- C4 (counterexample): two captures within the same second — same
generated file name — both report success, and the second one silently
overwrites the first image (data 7 replaced by data 8); no error is
raised. -/
theorem save_image_overwrite_cex :
    (capture_and_save ⟨true, [some 8], 0, 0⟩ ⟨2025, 9, 10, 10, 0, 0⟩ 1757498400
        (capture_and_save ⟨true, [some 7], 0, 0⟩ ⟨2025, 9, 10, 10, 0, 0⟩
          1757498400 []).files).outcome = .saved "20250910_100000.jpg" ∧
    (capture_and_save ⟨true, [some 8], 0, 0⟩ ⟨2025, 9, 10, 10, 0, 0⟩ 1757498400
        (capture_and_save ⟨true, [some 7], 0, 0⟩ ⟨2025, 9, 10, 10, 0, 0⟩
          1757498400 []).files).files =
      [⟨"plant_images", "20250910_100000.jpg", 1757498400, 8, 95⟩] := by
  refine ⟨by decide, by decide⟩

/-- C4 (amended): when the target path already exists, `save_image`
silently overwrites it: the directory keeps exactly the same (dir, name)
keys, and afterwards every file at the colliding path holds the new frame
at quality 95; no failure is reported. -/
theorem save_image_overwrite_spec (frame : Nat) (dir name : String) (t : Int)
    (files : List FileEntry)
    (hcol : files.any (fun f => f.dir == dir && f.name == name) = true) :
    (save_image frame dir name t files).map (fun f => (f.dir, f.name)) =
      files.map (fun f => (f.dir, f.name)) ∧
    ∀ f ∈ save_image frame dir name t files, f.dir = dir → f.name = name →
      f.data = frame ∧ f.quality = 95 := by
  unfold save_image
  rw [hcol]
  simp only [if_true]
  constructor
  · rw [List.map_map]
    apply List.map_congr_left
    intro f _
    simp only [Function.comp_apply]
    split <;> rfl
  · intro f hmem hd hn
    obtain ⟨a, ha, rfl⟩ := List.mem_map.mp hmem
    by_cases h : (a.dir == dir && a.name == name) = true
    · rw [if_pos h]
      exact ⟨rfl, rfl⟩
    · rw [if_neg h] at hd hn ⊢
      exact absurd (by simp [hd, hn]) h

/-- C4 (witness for the amended theorem): after overwriting the colliding
file, the entry at that path carries the new frame 8 and quality 95. -/
theorem save_image_overwrite_spec_witness :
    (⟨"plant_images", "n.jpg", 5, 8, 95⟩ : FileEntry).data = 8 ∧
    (⟨"plant_images", "n.jpg", 5, 8, 95⟩ : FileEntry).quality = 95 :=
  (save_image_overwrite_spec 8 "plant_images" "n.jpg" 5
      [⟨"plant_images", "n.jpg", 1, 7, 90⟩] (by decide)).2
    ⟨"plant_images", "n.jpg", 5, 8, 95⟩ (by decide) rfl rfl

/-! ## Theorems: watering decision -/

/-- C2: with a last-watering record present, `decide` returns `SkipTooSoon`
iff strictly fewer than `WATERING_INTERVAL_HOURS` (in seconds) have elapsed
— so exactly the interval is eligible and one second earlier is not;
otherwise `SkipMoistSufficient` iff the reading is below
`SOIL_MOISTURE_THRESHOLD`; otherwise `Trigger`. -/
theorem watering_decide_spec (r : SensorReading) (lw : WateringEvent) (now : Int) :
    (WateringController.decide r (some lw) now = .SkipTooSoon ↔
      now - lw.triggeredAt < WATERING_INTERVAL_HOURS * 3600) ∧
    (WATERING_INTERVAL_HOURS * 3600 ≤ now - lw.triggeredAt →
      (WateringController.decide r (some lw) now = .SkipMoistSufficient ↔
        r.soilMoisture < SOIL_MOISTURE_THRESHOLD)) ∧
    (WATERING_INTERVAL_HOURS * 3600 ≤ now - lw.triggeredAt →
      SOIL_MOISTURE_THRESHOLD ≤ r.soilMoisture →
        WateringController.decide r (some lw) now = .Trigger) ∧
    (now - lw.triggeredAt = WATERING_INTERVAL_HOURS * 3600 →
      WateringController.decide r (some lw) now ≠ .SkipTooSoon) ∧
    (now - lw.triggeredAt = WATERING_INTERVAL_HOURS * 3600 - 1 →
      WateringController.decide r (some lw) now = .SkipTooSoon) := by
  have hd : WateringController.decide r (some lw) now =
      if now - lw.triggeredAt < WATERING_INTERVAL_HOURS * 3600 then .SkipTooSoon
      else if r.soilMoisture < SOIL_MOISTURE_THRESHOLD then .SkipMoistSufficient
      else .Trigger := rfl
  rw [hd]
  refine ⟨?_, ?_, ?_, ?_, ?_⟩
  · constructor
    · intro h
      by_contra hc
      rw [if_neg hc] at h
      split at h <;> cases h
    · intro h
      rw [if_pos h]
  · intro hge
    rw [if_neg (not_lt.mpr hge)]
    constructor
    · intro h
      by_contra hc
      rw [if_neg hc] at h
      cases h
    · intro h
      rw [if_pos h]
  · intro hge hm
    rw [if_neg (not_lt.mpr hge), if_neg (not_lt.mpr hm)]
  · intro heq
    rw [if_neg (by omega)]
    split <;> simp
  · intro heq
    rw [if_pos (by omega)]

/-- C2 (witness): the spec's own scenarios — 13 hours elapsed with moisture
180 triggers; one second before the 12-hour boundary skips as too soon;
exactly at the boundary with a wet reading (140) skips as moist. -/
theorem watering_decide_spec_witness :
    WateringController.decide ⟨180, 0⟩ (some ⟨0, 5, 100⟩) 46800 = .Trigger ∧
    WateringController.decide ⟨180, 0⟩ (some ⟨0, 5, 100⟩) 43199 = .SkipTooSoon ∧
    WateringController.decide ⟨140, 0⟩ (some ⟨0, 5, 100⟩) 43200 = .SkipMoistSufficient :=
  ⟨(watering_decide_spec ⟨180, 0⟩ ⟨0, 5, 100⟩ 46800).2.2.1 (by decide) (by decide),
   (watering_decide_spec ⟨180, 0⟩ ⟨0, 5, 100⟩ 43199).1.mpr (by decide),
   ((watering_decide_spec ⟨140, 0⟩ ⟨0, 5, 100⟩ 43200).2.1 (by decide)).mpr (by decide)⟩

/-! ## Theorems: status endpoint -/

/-- C8 (counterexample): the `/api/status` response at a concrete time has
exactly the keys `status`, `timestamp`, `version` — it contains neither the
`ControllerState` snapshot (last reading / last watering / last capture)
nor the process uptime. -/
theorem api_status_missing_fields_cex :
    (api_status ⟨"dev-secret-key", true⟩ "2025-09-10T10:00:00").1 =
      [("status", "running"), ("timestamp", "2025-09-10T10:00:00"),
       ("version", "1.0.0")] ∧
    ("uptime" ∉ ["status", "timestamp", "version"]) ∧
    ("last_reading" ∉ ["status", "timestamp", "version"]) ∧
    ("last_watering" ∉ ["status", "timestamp", "version"]) ∧
    ("last_capture" ∉ ["status", "timestamp", "version"]) := by
  refine ⟨rfl, by decide, by decide, by decide, by decide⟩

/-- C8 (amended): the status endpoint always succeeds with the same shape,
is read-only (the app state is returned untouched), and its response holds
exactly a fixed status string, the current timestamp, and the version
string `1.0.0` — no `ControllerState` fields and no uptime. -/
theorem api_status_content_spec (app : AppModel) (nowIso : String) :
    (api_status app nowIso).2 = app ∧
    (api_status app nowIso).1 =
      [("status", "running"), ("timestamp", nowIso), ("version", "1.0.0")] :=
  ⟨rfl, rfl⟩

/-! ## Theorems: configuration and startup -/

/-- C9 (counterexample): with `SENSOR_CHECK_INTERVAL=abc` — a non-numeric
critical interval — the process still starts (`main` reaches `app.run`),
because neither `main.py` nor the app imports `config.py`; yet evaluating
the `Config` class body on that same environment would raise. -/
theorem startup_invalid_interval_cex :
    envBadInterval "SENSOR_CHECK_INTERVAL" = some "abc" ∧
    parsePyInt "abc" = none ∧
    pythonMain envBadInterval = .ok ⟨"dev-secret-key", true⟩ ∧
    loadConfig envBadInterval = .error (.invalidInt "SENSOR_CHECK_INTERVAL") := by
  refine ⟨rfl, rfl, rfl, rfl⟩

/-- C9 (amended): evaluating the `Config` class body fails on a present but
non-numeric interval variable, but a missing variable silently falls back
to its built-in default, and the startup path (`main` → `setup_logging` →
`create_app`) never evaluates `Config`, so the process starts regardless of
interval values whenever the log level is defaulted. -/
theorem config_startup_spec (env : Env) :
    (∀ s, env "SENSOR_CHECK_INTERVAL" = some s → parsePyInt s = none →
      loadConfig env = .error (.invalidInt "SENSOR_CHECK_INTERVAL")) ∧
    (env "LOG_LEVEL" = none → ∃ app, pythonMain env = .ok app) := by
  constructor
  · intro s hs hp
    unfold loadConfig envInt
    rw [hs]
    dsimp only
    rw [hp]
    rfl
  · intro hl
    refine ⟨create_app env, ?_⟩
    unfold pythonMain setup_logging
    rw [hl]
    rfl

/-- C9 (witness): the amended behavior at the concrete bad environment. -/
theorem config_startup_spec_witness :
    loadConfig envBadInterval = .error (.invalidInt "SENSOR_CHECK_INTERVAL") ∧
    (∃ app, pythonMain envBadInterval = .ok app) :=
  ⟨(config_startup_spec envBadInterval).1 "abc" rfl rfl,
   (config_startup_spec envBadInterval).2 rfl⟩

/-! ## Theorems: file-name round trip -/

/-- Digit characters evaluate as expected: `Char.ofNat (48 + k)` is a digit
with value `k` for `k < 10`. -/
theorem digit_char_props : ∀ k, k < 10 →
    ((Char.ofNat (48 + k)).isDigit = true ∧ (Char.ofNat (48 + k)).toNat - 48 = k) := by
  decide

/-- Every character produced by `digitChar` is a decimal digit. -/
theorem digitChar_isDigit (n : Nat) : (digitChar n).isDigit = true :=
  (digit_char_props (n % 10) (Nat.mod_lt _ (by decide))).1

/-- Reading back a `digitChar` recovers the digit. -/
theorem charDigit_digitChar (n : Nat) : charDigit (digitChar n) = n % 10 :=
  (digit_char_props (n % 10) (Nat.mod_lt _ (by decide))).2

/-- Value of a two-digit rendering. -/
theorem digitsVal_two (a b : Nat) :
    digitsVal [digitChar a, digitChar b] = (a % 10) * 10 + b % 10 := by
  simp [digitsVal, charDigit_digitChar]

/-- Value of a four-digit rendering. -/
theorem digitsVal_four (a b c d : Nat) :
    digitsVal [digitChar a, digitChar b, digitChar c, digitChar d] =
      (((a % 10) * 10 + b % 10) * 10 + c % 10) * 10 + d % 10 := by
  simp [digitsVal, charDigit_digitChar]

/-- C6: for every timestamp (fields within the two/four decimal digits the
format allots them), parsing the generated capture file name recovers the
timestamp exactly, at one-second resolution. -/
theorem file_name_round_trip (t : DateTime)
    (hy : t.year ≤ 9999) (hmo : t.month ≤ 99) (hd : t.day ≤ 99)
    (hh : t.hour ≤ 99) (hmi : t.minute ≤ 99) (hs : t.second ≤ 99) :
    parse_file_name (get_file_name t) = some t := by
  obtain ⟨y, mo, dy, hr, mi, sc⟩ := t
  dsimp only at hy hmo hd hh hmi hs
  unfold get_file_name parse_file_name
  dsimp only
  simp only [digitChar_isDigit, digitsVal_two, digitsVal_four]
  norm_num
  refine ⟨?_, ?_, ?_, ?_, ?_, ?_⟩ <;> omega

/-- C6 (witness): the round trip at the concrete timestamp
2025-09-10 10:00:00. -/
theorem file_name_round_trip_witness :
    parse_file_name (get_file_name ⟨2025, 9, 10, 10, 0, 0⟩) =
      some ⟨2025, 9, 10, 10, 0, 0⟩ :=
  file_name_round_trip ⟨2025, 9, 10, 10, 0, 0⟩ (by decide) (by decide) (by decide)
    (by decide) (by decide) (by decide)

end SmartPlanter
